import Mathlib

/-!
Verification of the Ghost → Cloudflare cache-purge worker (src/index.js).

The worker is embedded shallowly: each JavaScript function becomes a Lean
definition of the same name; the HTTP request, environment and CDN response
become explicit record types; the single outbound fetch becomes a function
parameter, and the list of outbound calls that the handler performs is
returned alongside its outcome.  An uncaught JavaScript exception is the
HandlerOutcome.thrown outcome.
-/

namespace GhostPurge

/-! ## HTTP status codes and error messages (constants of src/index.js) -/

def HTTP_OK : Nat := 200
def HTTP_BAD_REQUEST : Nat := 400
def HTTP_METHOD_NOT_ALLOWED : Nat := 405
def HTTP_INTERNAL_ERROR : Nat := 500

def ERROR_METHOD_NOT_ALLOWED : String := "Method not allowed. Only POST requests are accepted."
def ERROR_INVALID_CONTENT_TYPE : String := "Invalid content type. Only application/json is accepted."
def ERROR_MISSING_ZONE_ID : String := "Missing zone ID in URL path."
def ERROR_MISSING_ACTION : String := "Missing action in URL path."
def ERROR_INVALID_ACTION : String := "Invalid action. Allowed actions: postPublished, postUpdated."
def ERROR_MISSING_API_TOKEN : String := "Missing Cloudflare API token in environment."
def ERROR_INVALID_WEBHOOK : String := "Invalid webhook payload structure."
def ERROR_INVALID_ZONE_FORMAT : String := "Invalid zone ID format."

def ACTION_POST_PUBLISHED : String := "postPublished"
def ACTION_POST_UPDATED : String := "postUpdated"
def VALID_ACTIONS : List String := [ACTION_POST_PUBLISHED, ACTION_POST_UPDATED]

/-! ## Data model -/

/-- An HTTP response produced by the worker: status code and body,
as built by new Response(body, status). -/
structure Resp where
  status : Nat
  body : String
deriving Repr, DecidableEq

/-- A JSON value, the result of request.json().  Numbers are modelled as
integers; this suffices because no claim involves fractional numbers. -/
inductive Json where
  | null : Json
  | bool (b : Bool) : Json
  | num (n : Int) : Json
  | str (s : String) : Json
  | arr (elems : List Json) : Json
  | obj (fields : List (String × Json)) : Json

/-- Property lookup on a JSON value: obj.key, yielding none (undefined) when
the value is not an object or lacks the key.  This is what each step of the
optional chain body?.post?.current?.url evaluates to. -/
def Json.lookup : Json → String → Option Json
  | .obj fields, key => List.lookup key fields
  | _, _ => none

/-- JavaScript truthiness of a JSON value: null, false, 0 and the empty
string are falsy, everything else (arrays and objects included) is truthy. -/
def Json.truthy : Json → Bool
  | .null => false
  | .bool b => b
  | .num n => n != 0
  | .str s => s != ""
  | .arr _ => true
  | .obj _ => true

/-- Truthiness of an optionally-present value: undefined is falsy. -/
def jsTruthyOpt : Option Json → Bool
  | none => false
  | some j => j.truthy

/-- The optional chain body?.post?.current?.url of src/index.js. -/
def jsPostCurrentUrl (body : Json) : Option Json :=
  (body.lookup "post").bind fun p =>
    (p.lookup "current").bind fun c => c.lookup "url"

/-- Comma-join used by the array case of jsToString. -/
def joinWithCommas : List String → String
  | [] => ""
  | [s] => s
  | s :: rest => s ++ "," ++ joinWithCommas rest

mutual

/-- JavaScript String() coercion of a JSON value, as applied by the URL
constructor to a non-string argument.  Array/object coercion is modelled
only approximately (no claim depends on it); strings coerce to themselves. -/
def jsToString : Json → String
  | .null => "null"
  | .bool true => "true"
  | .bool false => "false"
  | .num n => toString n
  | .str s => s
  | .arr elems => joinWithCommas (jsToStringList elems)
  | .obj _ => "[object Object]"

def jsToStringList : List Json → List String
  | [] => []
  | j :: js => jsToString j :: jsToStringList js

end

/-- JavaScript falsiness of an optionally-present string: undefined and the
empty string are falsy.  Used for the !zoneID, !action, !apiToken checks. -/
def jsFalsyStr : Option String → Bool
  | none => true
  | some s => s == ""

/-- pat is a prefix of l, character by character. -/
def listStartsWith : List Char → List Char → Bool
  | _, [] => true
  | [], _ :: _ => false
  | a :: as, b :: bs => a == b && listStartsWith as bs

/-- pat occurs as a contiguous sublist of l. -/
def listContainsSub (l pat : List Char) : Bool :=
  match l with
  | [] => pat.isEmpty
  | _ :: tail => listStartsWith l pat || listContainsSub tail pat

/-- The JavaScript String.prototype.includes test: pat occurs as a
substring of s. -/
def jsIncludes (s pat : String) : Bool :=
  listContainsSub s.toList pat.toList

/-- The inbound HTTP request, with exactly the fields src/index.js reads:
method, the content-type header (none when absent), the pathname of
new URL(request.url), and the parsed JSON body (none when request.json()
throws on invalid JSON). -/
structure Req where
  method : String
  contentType : Option String
  pathname : String
  jsonBody : Option Json

/-- The worker environment: the one configured secret.  none models an
unset variable, some "" an empty one; both are falsy in JavaScript. -/
structure Env where
  CF_API_TOKEN : Option String

/-- The response of the outbound fetch to the Cloudflare API, with the
fields the worker reads: ok, status, statusText, and the body text that
response.text() returns. -/
structure CdnResp where
  ok : Bool
  status : Nat
  statusText : String
  bodyText : String
deriving Repr, DecidableEq

/-- One outbound HTTP call, as assembled by purgeURL: target URL, method,
the two headers, and the files array serialised into the JSON body. -/
structure OutboundCall where
  url : String
  method : String
  contentType : String
  authorization : String
  files : List String
deriving Repr, DecidableEq

/-- The observable outcome of handleRequest: either an HTTP response, or
termination by an exception that no try/catch intercepts. -/
inductive HandlerOutcome where
  | resp (r : Resp) : HandlerOutcome
  | thrown : HandlerOutcome
deriving Repr, DecidableEq

/-! ## URL model -/

/-- The components of a parsed absolute URL that the worker reads. -/
structure URLParts where
  protocol : String
  host : String
  href : String
deriving Repr, DecidableEq

def isSchemeChar (c : Char) : Bool :=
  c.isAlphanum || c = '+' || c = '-' || c = '.'

def validScheme : List Char → Bool
  | [] => false
  | c :: cs => c.isAlpha && cs.all isSchemeChar

/-- Split a character list at the first occurrence of pat, returning the
parts strictly before and strictly after it; none when pat never occurs. -/
def breakOnSub (pat : List Char) : List Char → Option (List Char × List Char)
  | [] => if pat.isEmpty then some ([], []) else none
  | c :: cs =>
    if listStartsWith (c :: cs) pat then some ([], (c :: cs).drop pat.length)
    else
      match breakOnSub pat cs with
      | none => none
      | some (pre, post) => some (c :: pre, post)

/-- Model of the WHATWG URL constructor new URL(s), restricted to absolute
URLs of the hierarchical shape scheme://host[/path][?query][#fragment]
without userinfo or port; none models a thrown TypeError.  Percent-encoding
and host normalisation are not modelled; every URL any claim mentions is
already in normal form. -/
def parseURL (s : String) : Option URLParts :=
  match breakOnSub "://".toList s.toList with
  | none => none
  | some (schemeChars, restChars) =>
    if validScheme schemeChars then
      let scheme := String.mk (schemeChars.map Char.toLower)
      let hostChars := restChars.takeWhile fun c => c ≠ '/' && c ≠ '?' && c ≠ '#'
      let afterChars := restChars.dropWhile fun c => c ≠ '/' && c ≠ '?' && c ≠ '#'
      let host := String.mk hostChars
      if hostChars.isEmpty || hostChars.any (fun c => c = '@' || c = ':' || c = ' ') then
        none
      else
        let tail :=
          match afterChars with
          | [] => "/"
          | '?' :: _ => "/" ++ String.mk afterChars
          | '#' :: _ => "/" ++ String.mk afterChars
          | _ => String.mk afterChars
        some { protocol := scheme ++ ":"
               host := host
               href := scheme ++ "://" ++ host ++ tail }
    else none

/-- Split a character list on a separator character; mirrors the
JavaScript String.prototype.split with a one-character separator. -/
def splitChar (sep : Char) : List Char → List (List Char)
  | [] => [[]]
  | c :: cs =>
    let rest := splitChar sep cs
    if c = sep then [] :: rest
    else
      match rest with
      | [] => [[c]]
      | seg :: segs => (c :: seg) :: segs

/-- url.pathname.split("/").filter(Boolean): the non-empty slash-separated
segments of the path. -/
def pathSegs (pathname : String) : List String :=
  ((splitChar '/' pathname.toList).map String.mk).filter fun s => s != ""

/-! ## The validators of src/index.js -/

/-- validateRequest: method must be POST (else 405), content-type header
must contain application/json (else 400). -/
def validateRequest (request : Req) : Option Resp :=
  if request.method ≠ "POST" then
    some ⟨HTTP_METHOD_NOT_ALLOWED, ERROR_METHOD_NOT_ALLOWED⟩
  else
    let contentType := request.contentType.getD ""
    if jsIncludes contentType "application/json" = false then
      some ⟨HTTP_BAD_REQUEST, ERROR_INVALID_CONTENT_TYPE⟩
    else none

/-- The regex test of src/index.js line 58, ^[a-f0-9]\x7b32\x7d$ with the i
flag: exactly 32 characters, each a decimal digit or a hex letter of either
case. -/
def isHexDigitCI (c : Char) : Bool :=
  c.isDigit || ('a' ≤ c && c ≤ 'f') || ('A' ≤ c && c ≤ 'F')

def zoneIDRegexTest (zoneID : String) : Bool :=
  zoneID.length == 32 && zoneID.toList.all isHexDigitCI

/-- validateZoneID: missing or empty zone ID yields 400 missing-zone,
a zone ID failing the regex yields 400 invalid-format. -/
def validateZoneID (zoneID : Option String) : Option Resp :=
  if jsFalsyStr zoneID then
    some ⟨HTTP_BAD_REQUEST, ERROR_MISSING_ZONE_ID⟩
  else if zoneIDRegexTest (zoneID.getD "") = false then
    some ⟨HTTP_BAD_REQUEST, ERROR_INVALID_ZONE_FORMAT⟩
  else none

/-- validateAction: missing or empty action yields 400 missing-action, an
action outside VALID_ACTIONS yields 400 invalid-action. -/
def validateAction (action : Option String) : Option Resp :=
  if jsFalsyStr action then
    some ⟨HTTP_BAD_REQUEST, ERROR_MISSING_ACTION⟩
  else if VALID_ACTIONS.contains (action.getD "") = false then
    some ⟨HTTP_BAD_REQUEST, ERROR_INVALID_ACTION⟩
  else none

/-- validateApiToken: a missing or empty token yields 500. -/
def validateApiToken (apiToken : Option String) : Option Resp :=
  if jsFalsyStr apiToken then
    some ⟨HTTP_INTERNAL_ERROR, ERROR_MISSING_API_TOKEN⟩
  else none

/-- validateWebhookBody: body?.post?.current?.url must be truthy, else 400. -/
def validateWebhookBody (body : Json) : Option Resp :=
  if jsTruthyOpt (jsPostCurrentUrl body) = false then
    some ⟨HTTP_BAD_REQUEST, ERROR_INVALID_WEBHOOK⟩
  else none

/-! ## Purge planning and dispatch -/

/-- getUrlsToPurge: six fixed site-wide URLs under rootURL, then the
homepage for postPublished or the post URL for postUpdated. -/
def getUrlsToPurge (action rootURL postURL : String) : List String :=
  let urls := [
    rootURL ++ "/sitemap.xml",
    rootURL ++ "/sitemap-posts.xml",
    rootURL ++ "/sitemap-pages.xml",
    rootURL ++ "/sitemap-tags.xml",
    rootURL ++ "/sitemap-news/",
    rootURL ++ "/rss/"]
  if action = ACTION_POST_PUBLISHED then
    urls ++ [rootURL]
  else if action = ACTION_POST_UPDATED then
    urls ++ [postURL]
  else urls

/-- handlePurgeFailure: pass through the provider status, with body
"Cache purge failed: " followed by the provider statusText.  The logged
error text (response.text()) does not affect the response. -/
def handlePurgeFailure (response : CdnResp) (_zoneID : String)
    (_urls : List String) : Resp :=
  ⟨response.status, "Cache purge failed: " ++ response.statusText⟩

/-- handlePurgeSuccess: 200 OK regardless of zone and URL list. -/
def handlePurgeSuccess (_zoneID : String) (_urls : List String) : Resp :=
  ⟨HTTP_OK, "OK"⟩

/-- purgeURL without its fetch: the outbound call it assembles, POST to the
zone-scoped purge endpoint with JSON content type, bearer authorization and
body consisting of the files array. -/
def purgeURL (urlToPurge : List String) (zoneID apiToken : String) : OutboundCall :=
  { method := "POST"
    contentType := "application/json"
    authorization := "Bearer " ++ apiToken
    files := urlToPurge
    url := "https://api.cloudflare.com/client/v4/zones/" ++ zoneID ++ "/purge_cache" }

/-! ## The request handler -/

/-- handleRequest of src/index.js.  cdn is the outbound fetch of purgeURL;
the second component of the result lists the outbound calls performed, in
order.  The try/catch around request.json() is the match on jsonBody; the
URL constructor on the post URL is outside every try/catch, so a parse
failure there is the thrown outcome. -/
def handleRequest (request : Req) (env : Env)
    (cdn : OutboundCall → CdnResp) : HandlerOutcome × List OutboundCall :=
  match validateRequest request with
  | some e => (.resp e, [])
  | none =>
  let segs := pathSegs request.pathname
  let zoneID := segs[0]?
  let action := segs[1]?
  match validateZoneID zoneID with
  | some e => (.resp e, [])
  | none =>
  match validateAction action with
  | some e => (.resp e, [])
  | none =>
  match validateApiToken env.CF_API_TOKEN with
  | some e => (.resp e, [])
  | none =>
  match request.jsonBody with
  | none => (.resp ⟨HTTP_BAD_REQUEST, ERROR_INVALID_WEBHOOK⟩, [])
  | some body =>
  match validateWebhookBody body with
  | some e => (.resp e, [])
  | none =>
  match parseURL (jsToString ((jsPostCurrentUrl body).getD .null)) with
  | none => (.thrown, [])
  | some postURL =>
    let rootURL := postURL.protocol ++ "//" ++ postURL.host
    let urlsToPurge := getUrlsToPurge (action.getD "") rootURL postURL.href
    let call := purgeURL urlsToPurge (zoneID.getD "") (env.CF_API_TOKEN.getD "")
    let response := cdn call
    if response.ok then
      (.resp (handlePurgeSuccess (zoneID.getD "") urlsToPurge), [call])
    else
      (.resp (handlePurgeFailure response (zoneID.getD "") urlsToPurge), [call])

/-- Lines 217 to 222 of handleRequest as one function: the purge list
derived from the action and the post URL string, none when the URL
constructor throws. -/
def deriveUrls (action postURLString : String) : Option (List String) :=
  (parseURL postURLString).map fun postURL =>
    getUrlsToPurge action (postURL.protocol ++ "//" ++ postURL.host) postURL.href

/-! ## The validation order as the specification words it -/

/-- The nine validation checks in the order and with the statuses that the
specification claims, each short-circuiting: a second definition written
from the specification text, to be compared with handleRequest.  A
configured token and a present post.current.url are read as the
corresponding JavaScript truthiness checks. -/
def specValidationFirstFailure (req : Req) (env : Env) : Option Nat :=
  if req.method ≠ "POST" then some 405
  else if jsIncludes (req.contentType.getD "") "application/json" = false then some 400
  else
    match (pathSegs req.pathname)[0]? with
    | none => some 400
    | some z =>
      if zoneIDRegexTest z = false then some 400
      else
        match (pathSegs req.pathname)[1]? with
        | none => some 400
        | some a =>
          if VALID_ACTIONS.contains a = false then some 400
          else if jsFalsyStr env.CF_API_TOKEN then some 500
          else
            match req.jsonBody with
            | none => some 400
            | some body =>
              if jsTruthyOpt (jsPostCurrentUrl body) = false then some 400
              else none

/-- The zone pattern of the specification, as a proposition: exactly 32
characters, each a decimal digit or a hex letter of either case. -/
def zoneMatchesSpec (s : String) : Prop :=
  s.length = 32 ∧ ∀ c ∈ s.toList, c.isDigit ∨ ('a' ≤ c ∧ c ≤ 'f') ∨ ('A' ≤ c ∧ c ≤ 'F')

instance (s : String) : Decidable (zoneMatchesSpec s) := by
  unfold zoneMatchesSpec; infer_instance

/-! ## Concrete inputs used by witnesses and counterexamples -/

def exampleZoneID : String := "0123456789abcdef0123456789abcdef"

def exampleBody : Json :=
  .obj [("post", .obj [("current", .obj [("url", .str "https://example.com/my-post/")])])]

def exampleReq : Req :=
  { method := "POST"
    contentType := some "application/json"
    pathname := "/0123456789abcdef0123456789abcdef/postPublished"
    jsonBody := some exampleBody }

def exampleEnv : Env := { CF_API_TOKEN := some "test-token" }

/-- A CDN stub whose purge call always succeeds. -/
def cdnAlwaysOk : OutboundCall → CdnResp := fun _ => ⟨true, 200, "OK", ""⟩

/-- A CDN stub whose purge call always fails with 403 Forbidden. -/
def cdnAlwaysForbidden : OutboundCall → CdnResp :=
  fun _ => ⟨false, 403, "Forbidden", "authentication error"⟩

/-- A webhook body whose post.current.url is a non-empty string that is not
a parseable absolute URL. -/
def badUrlBody : Json :=
  .obj [("post", .obj [("current", .obj [("url", .str "not a url")])])]

def reqBadUrl : Req := { exampleReq with jsonBody := some badUrlBody }

/-- A second valid request with the same action and post URL as exampleReq
but a different zone, content type, path tail and extra body fields. -/
def otherBody : Json :=
  .obj [("post", .obj [("current",
          .obj [("title", .str "My Post"), ("url", .str "https://example.com/my-post/")])]),
        ("extra", .num 7)]

def otherReq : Req :=
  { method := "POST"
    contentType := some "application/json; charset=utf-8"
    pathname := "/ffffffffffffffffffffffffffffffff/postPublished/extra"
    jsonBody := some otherBody }

def otherEnv : Env := { CF_API_TOKEN := some "other-token" }

/-- exampleReq readdressed to a path with extra trailing segments and
repeated slashes. -/
def extraSegsReq : Req :=
  { exampleReq with pathname := "//0123456789abcdef0123456789abcdef//postPublished/extra/segments" }

/-- The outbound call that exampleReq gives rise to. -/
def exampleCall : OutboundCall :=
  purgeURL
    (getUrlsToPurge "postPublished" "https://example.com" "https://example.com/my-post/")
    exampleZoneID "test-token"

/-! ## Characterizations of the validators -/

theorem validateRequest_none_iff (req : Req) :
    validateRequest req = none ↔
      req.method = "POST" ∧
        jsIncludes (req.contentType.getD "") "application/json" = true := by
  by_cases hm : req.method = "POST"
  · by_cases hct : jsIncludes (req.contentType.getD "") "application/json" = true
    · simp [validateRequest, hm, hct]
    · simp [validateRequest, hm, Bool.not_eq_true] at hct ⊢
  · simp [validateRequest, hm]

theorem validateZoneID_none_iff (o : Option String) :
    validateZoneID o = none ↔
      ∃ z, o = some z ∧ z ≠ "" ∧ zoneIDRegexTest z = true := by
  rcases o with _ | z
  · simp [validateZoneID, jsFalsyStr]
  · by_cases hz : z = ""
    · subst hz; simp [validateZoneID, jsFalsyStr]
    · by_cases hr : zoneIDRegexTest z = true
      · simp [validateZoneID, jsFalsyStr, hz, hr]
      · simp [validateZoneID, jsFalsyStr, hz, Bool.not_eq_true] at hr ⊢

theorem validateAction_none_iff (o : Option String) :
    validateAction o = none ↔
      ∃ a, o = some a ∧ a ≠ "" ∧ VALID_ACTIONS.contains a = true := by
  rcases o with _ | a
  · simp [validateAction, jsFalsyStr]
  · by_cases ha : a = ""
    · subst ha; simp [validateAction, jsFalsyStr]
    · by_cases hc : VALID_ACTIONS.contains a = true
      · simp [validateAction, jsFalsyStr, ha, hc]
      · simp [validateAction, jsFalsyStr, ha, Bool.not_eq_true] at hc ⊢

theorem validateApiToken_none_iff (o : Option String) :
    validateApiToken o = none ↔ jsFalsyStr o = false := by
  by_cases h : jsFalsyStr o = true
  · simp [validateApiToken, h]
  · simp [Bool.not_eq_true] at h
    simp [validateApiToken, h]

theorem validateWebhookBody_none_iff (b : Json) :
    validateWebhookBody b = none ↔ jsTruthyOpt (jsPostCurrentUrl b) = true := by
  by_cases h : jsTruthyOpt (jsPostCurrentUrl b) = true
  · simp [validateWebhookBody, h]
  · simp [Bool.not_eq_true] at h
    simp [validateWebhookBody, h]

/-! ## Step lemmas for handleRequest -/

theorem handleRequest_requestError {req : Req} {e : Resp} (env : Env)
    (cdn : OutboundCall → CdnResp) (h : validateRequest req = some e) :
    handleRequest req env cdn = (.resp e, []) := by
  simp only [handleRequest, h]

theorem handleRequest_zoneError {req : Req} {e : Resp} (env : Env)
    (cdn : OutboundCall → CdnResp)
    (h1 : validateRequest req = none)
    (h2 : validateZoneID ((pathSegs req.pathname)[0]?) = some e) :
    handleRequest req env cdn = (.resp e, []) := by
  simp only [handleRequest, h1, h2]

theorem handleRequest_actionError {req : Req} {e : Resp} (env : Env)
    (cdn : OutboundCall → CdnResp)
    (h1 : validateRequest req = none)
    (h2 : validateZoneID ((pathSegs req.pathname)[0]?) = none)
    (h3 : validateAction ((pathSegs req.pathname)[1]?) = some e) :
    handleRequest req env cdn = (.resp e, []) := by
  simp only [handleRequest, h1, h2, h3]

theorem handleRequest_tokenError {req : Req} {e : Resp} {env : Env}
    (cdn : OutboundCall → CdnResp)
    (h1 : validateRequest req = none)
    (h2 : validateZoneID ((pathSegs req.pathname)[0]?) = none)
    (h3 : validateAction ((pathSegs req.pathname)[1]?) = none)
    (h4 : validateApiToken env.CF_API_TOKEN = some e) :
    handleRequest req env cdn = (.resp e, []) := by
  simp only [handleRequest, h1, h2, h3, h4]

theorem handleRequest_jsonError {req : Req} {env : Env}
    (cdn : OutboundCall → CdnResp)
    (h1 : validateRequest req = none)
    (h2 : validateZoneID ((pathSegs req.pathname)[0]?) = none)
    (h3 : validateAction ((pathSegs req.pathname)[1]?) = none)
    (h4 : validateApiToken env.CF_API_TOKEN = none)
    (h5 : req.jsonBody = none) :
    handleRequest req env cdn =
      (.resp ⟨HTTP_BAD_REQUEST, ERROR_INVALID_WEBHOOK⟩, []) := by
  simp only [handleRequest, h1, h2, h3, h4, h5]

theorem handleRequest_bodyError {req : Req} {env : Env} {body : Json} {e : Resp}
    (cdn : OutboundCall → CdnResp)
    (h1 : validateRequest req = none)
    (h2 : validateZoneID ((pathSegs req.pathname)[0]?) = none)
    (h3 : validateAction ((pathSegs req.pathname)[1]?) = none)
    (h4 : validateApiToken env.CF_API_TOKEN = none)
    (h5 : req.jsonBody = some body)
    (h6 : validateWebhookBody body = some e) :
    handleRequest req env cdn = (.resp e, []) := by
  simp only [handleRequest, h1, h2, h3, h4, h5, h6]

theorem handleRequest_urlThrow {req : Req} {env : Env} {body : Json}
    (cdn : OutboundCall → CdnResp)
    (h1 : validateRequest req = none)
    (h2 : validateZoneID ((pathSegs req.pathname)[0]?) = none)
    (h3 : validateAction ((pathSegs req.pathname)[1]?) = none)
    (h4 : validateApiToken env.CF_API_TOKEN = none)
    (h5 : req.jsonBody = some body)
    (h6 : validateWebhookBody body = none)
    (h7 : parseURL (jsToString ((jsPostCurrentUrl body).getD .null)) = none) :
    handleRequest req env cdn = (.thrown, []) := by
  simp only [handleRequest, h1, h2, h3, h4, h5, h6, h7]

theorem handleRequest_dispatch {req : Req} {env : Env} {body : Json} {u : URLParts}
    (cdn : OutboundCall → CdnResp)
    (h1 : validateRequest req = none)
    (h2 : validateZoneID ((pathSegs req.pathname)[0]?) = none)
    (h3 : validateAction ((pathSegs req.pathname)[1]?) = none)
    (h4 : validateApiToken env.CF_API_TOKEN = none)
    (h5 : req.jsonBody = some body)
    (h6 : validateWebhookBody body = none)
    (h7 : parseURL (jsToString ((jsPostCurrentUrl body).getD .null)) = some u) :
    handleRequest req env cdn =
      (let urls := getUrlsToPurge (((pathSegs req.pathname)[1]?).getD "")
          (u.protocol ++ "//" ++ u.host) u.href
       let call := purgeURL urls (((pathSegs req.pathname)[0]?).getD "")
          (env.CF_API_TOKEN.getD "")
       if (cdn call).ok then (.resp (handlePurgeSuccess (((pathSegs req.pathname)[0]?).getD "") urls), [call])
       else (.resp (handlePurgeFailure (cdn call) (((pathSegs req.pathname)[0]?).getD "") urls), [call])) := by
  simp only [handleRequest, h1, h2, h3, h4, h5, h6, h7]

/-! ## Generic path and zone lemmas -/

theorem pathSegs_get_ne_empty {p : String} {i : Nat} {s : String}
    (h : (pathSegs p)[i]? = some s) : s ≠ "" := by
  have hg : (pathSegs p).get? i = some s := by
    rw [List.get?_eq_getElem?]
    exact h
  have hmem : s ∈ pathSegs p := List.get?_mem hg
  unfold pathSegs at hmem
  have hp := List.of_mem_filter hmem
  simpa using hp

theorem zoneIDRegexTest_iff (s : String) :
    zoneIDRegexTest s = true ↔ zoneMatchesSpec s := by
  simp [zoneIDRegexTest, zoneMatchesSpec, isHexDigitCI, List.all_eq_true,
    Bool.or_eq_true, Bool.and_eq_true, decide_eq_true_eq, or_assoc]

/-! ## Claim C3 -/

/-- C3: for action postPublished and post URL https://example.com/my-post/
the derived purge list is exactly the six site-wide URLs followed by the
root URL; for postUpdated the first six are the same and the last element
is the post URL instead of the root. -/
theorem deriveUrls_on_example_post :
    deriveUrls ACTION_POST_PUBLISHED "https://example.com/my-post/" =
      some ["https://example.com/sitemap.xml",
            "https://example.com/sitemap-posts.xml",
            "https://example.com/sitemap-pages.xml",
            "https://example.com/sitemap-tags.xml",
            "https://example.com/sitemap-news/",
            "https://example.com/rss/",
            "https://example.com"] ∧
    deriveUrls ACTION_POST_UPDATED "https://example.com/my-post/" =
      some ["https://example.com/sitemap.xml",
            "https://example.com/sitemap-posts.xml",
            "https://example.com/sitemap-pages.xml",
            "https://example.com/sitemap-tags.xml",
            "https://example.com/sitemap-news/",
            "https://example.com/rss/",
            "https://example.com/my-post/"] := by
  decide

/-! ## Claim C5 -/

/-- C5: every request whose method is not POST is answered 405, whatever
the path, headers, body and environment are. -/
theorem non_post_method_rejected_405 (req : Req) (env : Env)
    (cdn : OutboundCall → CdnResp) (h : req.method ≠ "POST") :
    handleRequest req env cdn =
      (.resp ⟨HTTP_METHOD_NOT_ALLOWED, ERROR_METHOD_NOT_ALLOWED⟩, []) := by
  have hv : validateRequest req =
      some ⟨HTTP_METHOD_NOT_ALLOWED, ERROR_METHOD_NOT_ALLOWED⟩ := by
    simp [validateRequest, h]
  exact handleRequest_requestError env cdn hv

theorem non_post_method_rejected_405_witness :
    handleRequest { exampleReq with method := "GET" } exampleEnv cdnAlwaysOk =
      (.resp ⟨HTTP_METHOD_NOT_ALLOWED, ERROR_METHOD_NOT_ALLOWED⟩, []) :=
  non_post_method_rejected_405 { exampleReq with method := "GET" }
    exampleEnv cdnAlwaysOk (by decide)

/-! ## Claim C10 -/

/-- C10: a request that passes every validation check, whose
post.current.url is the non-empty string "not a url", makes the URL
constructor throw outside every try/catch: the handler terminates with an
uncaught exception and returns no response at all. -/
theorem unparseable_post_url_throws :
    specValidationFirstFailure reqBadUrl exampleEnv = none ∧
    validateWebhookBody badUrlBody = none ∧
    handleRequest reqBadUrl exampleEnv cdnAlwaysOk = (.thrown, []) := by
  decide

/-! ## Claim C4 -/

/-- C4: a zone identifier that fails the 32-hex pattern is answered 400,
and every 32-character hex string of either case passes the check. -/
theorem zone_format_validation (s : String) :
    (¬ zoneMatchesSpec s →
      ∃ msg, validateZoneID (some s) = some ⟨HTTP_BAD_REQUEST, msg⟩) ∧
    (zoneMatchesSpec s → validateZoneID (some s) = none) := by
  constructor
  · intro h
    by_cases hz : s = ""
    · subst hz
      exact ⟨ERROR_MISSING_ZONE_ID, by simp [validateZoneID, jsFalsyStr]⟩
    · have hr : zoneIDRegexTest s = false := by
        have : zoneIDRegexTest s ≠ true := fun hc => h ((zoneIDRegexTest_iff s).mp hc)
        simpa [Bool.not_eq_true] using this
      exact ⟨ERROR_INVALID_ZONE_FORMAT, by simp [validateZoneID, jsFalsyStr, hz, hr]⟩
  · intro h
    have hr : zoneIDRegexTest s = true := (zoneIDRegexTest_iff s).mpr h
    have hz : s ≠ "" := by
      intro hz
      subst hz
      exact absurd h.1 (by decide)
    simp [validateZoneID, jsFalsyStr, hz, hr]

theorem zone_format_validation_witness :
    (∃ msg, validateZoneID (some "not-a-zone-id") = some ⟨HTTP_BAD_REQUEST, msg⟩) ∧
    validateZoneID (some "0123456789ABCDEF0123456789abcdef") = none :=
  ⟨(zone_format_validation "not-a-zone-id").1 (by decide),
   (zone_format_validation "0123456789ABCDEF0123456789abcdef").2 (by decide)⟩

/-! ## Inversion: when the handler performed an outbound call -/

theorem handleRequest_call_inversion (req : Req) (env : Env)
    (cdn : OutboundCall → CdnResp) (call : OutboundCall)
    (h : (handleRequest req env cdn).2 = [call]) :
    ∃ z a body u,
      (pathSegs req.pathname)[0]? = some z ∧
      (pathSegs req.pathname)[1]? = some a ∧
      req.jsonBody = some body ∧
      parseURL (jsToString ((jsPostCurrentUrl body).getD .null)) = some u ∧
      call = purgeURL (getUrlsToPurge a (u.protocol ++ "//" ++ u.host) u.href) z
        (env.CF_API_TOKEN.getD "") ∧
      handleRequest req env cdn =
        (if (cdn call).ok then
          (.resp (handlePurgeSuccess z
            (getUrlsToPurge a (u.protocol ++ "//" ++ u.host) u.href)), [call])
         else
          (.resp (handlePurgeFailure (cdn call) z
            (getUrlsToPurge a (u.protocol ++ "//" ++ u.host) u.href)), [call])) := by
  rcases hv1 : validateRequest req with _ | e
  · rcases hv2 : validateZoneID ((pathSegs req.pathname)[0]?) with _ | e
    · rcases hv3 : validateAction ((pathSegs req.pathname)[1]?) with _ | e
      · rcases hv4 : validateApiToken env.CF_API_TOKEN with _ | e
        · rcases hv5 : req.jsonBody with _ | body
          · rw [handleRequest_jsonError cdn hv1 hv2 hv3 hv4 hv5] at h
            simp at h
          · rcases hv6 : validateWebhookBody body with _ | e
            · rcases hv7 : parseURL (jsToString ((jsPostCurrentUrl body).getD .null))
                with _ | u
              · rw [handleRequest_urlThrow cdn hv1 hv2 hv3 hv4 hv5 hv6 hv7] at h
                simp at h
              · obtain ⟨z, hz, hzne, hzreg⟩ := (validateZoneID_none_iff _).mp hv2
                obtain ⟨a, ha, hane, hac⟩ := (validateAction_none_iff _).mp hv3
                have hd := handleRequest_dispatch cdn hv1 hv2 hv3 hv4 hv5 hv6 hv7
                rw [hz, ha] at hd
                simp only [Option.getD_some] at hd
                rw [hd] at h
                by_cases hok : (cdn (purgeURL
                    (getUrlsToPurge a (u.protocol ++ "//" ++ u.host) u.href) z
                    (env.CF_API_TOKEN.getD ""))).ok = true
                · simp only [hok, if_true] at h
                  simp only [List.cons.injEq, and_true] at h
                  subst h
                  exact ⟨z, a, body, u, hz, ha, rfl, hv7, rfl, by
                    rw [hd, hok]⟩
                · simp only [Bool.not_eq_true] at hok
                  simp only [hok, if_false, Bool.false_eq_true] at h
                  simp only [List.cons.injEq, and_true] at h
                  subst h
                  exact ⟨z, a, body, u, hz, ha, rfl, hv7, rfl, by
                    rw [hd, hok]⟩
            · rw [handleRequest_bodyError cdn hv1 hv2 hv3 hv4 hv5 hv6] at h
              simp at h
        · rw [handleRequest_tokenError cdn hv1 hv2 hv3 hv4] at h
          simp at h
      · rw [handleRequest_actionError env cdn hv1 hv2 hv3] at h
        simp at h
    · rw [handleRequest_zoneError env cdn hv1 hv2] at h
      simp at h
  · rw [handleRequest_requestError env cdn hv1] at h
    simp at h

/-- The outbound call that otherReq gives rise to. -/
def otherCall : OutboundCall :=
  purgeURL
    (getUrlsToPurge "postPublished" "https://example.com" "https://example.com/my-post/")
    "ffffffffffffffffffffffffffffffff" "other-token"

/-! ## Claim C1 -/

/-- C1 counterexample: with a provider failure 403 Forbidden the response
status is 403 but the body is "Cache purge failed: Forbidden", not the
status text "Forbidden" verbatim. -/
theorem purge_failure_body_not_statusText :
    (handleRequest exampleReq exampleEnv cdnAlwaysForbidden).1 =
      .resp ⟨403, "Cache purge failed: Forbidden"⟩ ∧
    ¬ (handleRequest exampleReq exampleEnv cdnAlwaysForbidden).1 =
      .resp ⟨403, "Forbidden"⟩ := by
  decide

/-- C1 amended: when the handler performed its purge call and the provider
response is not ok, the handler responds with the provider status code and
with body "Cache purge failed: " followed by the provider status text. -/
theorem purge_failure_passthrough (req : Req) (env : Env)
    (cdn : OutboundCall → CdnResp) (call : OutboundCall)
    (h : (handleRequest req env cdn).2 = [call])
    (hok : (cdn call).ok = false) :
    (handleRequest req env cdn).1 =
      .resp ⟨(cdn call).status, "Cache purge failed: " ++ (cdn call).statusText⟩ := by
  obtain ⟨z, a, body, u, hz, ha, hb, hu, hcall, hres⟩ :=
    handleRequest_call_inversion req env cdn call h
  rw [hres, hok]
  simp [handlePurgeFailure]

theorem purge_failure_passthrough_witness :
    (handleRequest exampleReq exampleEnv cdnAlwaysForbidden).1 =
      .resp ⟨403, "Cache purge failed: Forbidden"⟩ :=
  purge_failure_passthrough exampleReq exampleEnv cdnAlwaysForbidden exampleCall
    (by decide) (by decide)

/-! ## Claim C6 -/

/-- C6: when the handler performed its purge call and the provider
response is ok, the handler responds 200 with body exactly "OK". -/
theorem purge_success_responds_200_ok (req : Req) (env : Env)
    (cdn : OutboundCall → CdnResp) (call : OutboundCall)
    (h : (handleRequest req env cdn).2 = [call])
    (hok : (cdn call).ok = true) :
    (handleRequest req env cdn).1 = .resp ⟨HTTP_OK, "OK"⟩ := by
  obtain ⟨z, a, body, u, hz, ha, hb, hu, hcall, hres⟩ :=
    handleRequest_call_inversion req env cdn call h
  rw [hres, hok]
  simp [handlePurgeSuccess]

theorem purge_success_responds_200_ok_witness :
    (handleRequest exampleReq exampleEnv cdnAlwaysOk).1 = .resp ⟨HTTP_OK, "OK"⟩ :=
  purge_success_responds_200_ok exampleReq exampleEnv cdnAlwaysOk exampleCall
    (by decide) (by decide)

/-! ## Claim C7 -/

/-- C7: for any two requests that each reach the purge call, equal action
segments and equal post.current.url values give identical purge URL lists,
whatever the zones, credentials, headers and other body fields are. -/
theorem purge_list_deterministic (r1 : Req) (e1 : Env)
    (f1 : OutboundCall → CdnResp) (c1 : OutboundCall)
    (r2 : Req) (e2 : Env) (f2 : OutboundCall → CdnResp) (c2 : OutboundCall)
    (h1 : (handleRequest r1 e1 f1).2 = [c1])
    (h2 : (handleRequest r2 e2 f2).2 = [c2])
    (hact : (pathSegs r1.pathname)[1]? = (pathSegs r2.pathname)[1]?)
    (hurl : r1.jsonBody.bind jsPostCurrentUrl = r2.jsonBody.bind jsPostCurrentUrl) :
    c1.files = c2.files := by
  obtain ⟨z1, a1, b1, u1, hz1, ha1, hb1, hu1, hc1, _⟩ :=
    handleRequest_call_inversion r1 e1 f1 c1 h1
  obtain ⟨z2, a2, b2, u2, hz2, ha2, hb2, hu2, hc2, _⟩ :=
    handleRequest_call_inversion r2 e2 f2 c2 h2
  rw [ha1, ha2] at hact
  injection hact with haeq
  rw [hb1, hb2] at hurl
  simp only [Option.some_bind] at hurl
  have hup : parseURL (jsToString ((jsPostCurrentUrl b1).getD .null)) =
      parseURL (jsToString ((jsPostCurrentUrl b2).getD .null)) := by rw [hurl]
  rw [hu1, hu2] at hup
  injection hup with hueq
  rw [hc1, hc2]
  simp [purgeURL, haeq, hueq]

theorem purge_list_deterministic_witness :
    exampleCall.files = otherCall.files :=
  purge_list_deterministic exampleReq exampleEnv cdnAlwaysOk exampleCall
    otherReq otherEnv cdnAlwaysForbidden otherCall
    (by decide) (by decide) (by decide) rfl

/-! ## Claim C9 -/

/-- C9: the handler reads the path only through its first two non-empty
segments, so extra segments and repeated slashes leave the behaviour
unchanged. -/
theorem extra_path_segments_ignored (req : Req) (env : Env)
    (cdn : OutboundCall → CdnResp) (p2 : String)
    (h0 : (pathSegs req.pathname)[0]? = (pathSegs p2)[0]?)
    (h1 : (pathSegs req.pathname)[1]? = (pathSegs p2)[1]?) :
    handleRequest req env cdn = handleRequest { req with pathname := p2 } env cdn := by
  have e1 : validateRequest { req with pathname := p2 } = validateRequest req := rfl
  simp only [handleRequest, h0, h1, e1]

theorem extra_path_segments_ignored_witness :
    handleRequest extraSegsReq exampleEnv cdnAlwaysOk =
      handleRequest { extraSegsReq with
        pathname := "/0123456789abcdef0123456789abcdef/postPublished" }
        exampleEnv cdnAlwaysOk :=
  extra_path_segments_ignored extraSegsReq exampleEnv cdnAlwaysOk
    "/0123456789abcdef0123456789abcdef/postPublished" (by decide) (by decide)

/-! ## The specification validation order against the handler -/

theorem validation_order_leaf {req : Req} {env : Env}
    {cdn : OutboundCall → CdnResp} {n : Nat} {m : String}
    (hh : handleRequest req env cdn = (.resp ⟨n, m⟩, []))
    (hspec : specValidationFirstFailure req env = some n) :
    (∀ s, specValidationFirstFailure req env = some s →
      ∃ msg, handleRequest req env cdn = (.resp ⟨s, msg⟩, [])) ∧
    (specValidationFirstFailure req env = none →
      handleRequest req env cdn = (.thrown, []) ∨
      ∃ c, (handleRequest req env cdn).2 = [c]) := by
  constructor
  · intro s hs
    rw [hspec] at hs
    injection hs with hs
    subst hs
    exact ⟨m, hh⟩
  · intro h0
    rw [hspec] at h0
    simp at h0

theorem specValidationFirstFailure_none_elim (req : Req) (env : Env)
    (h : specValidationFirstFailure req env = none) :
    validateRequest req = none ∧
    validateZoneID ((pathSegs req.pathname)[0]?) = none ∧
    validateAction ((pathSegs req.pathname)[1]?) = none ∧
    validateApiToken env.CF_API_TOKEN = none ∧
    ∀ body, req.jsonBody = some body → validateWebhookBody body = none := by
  by_cases hm : req.method = "POST"
  · by_cases hct : jsIncludes (req.contentType.getD "") "application/json" = true
    · rcases hs0 : (pathSegs req.pathname)[0]? with _ | z
      · simp [specValidationFirstFailure, hm, hct, hs0] at h
      · have hzne : z ≠ "" := pathSegs_get_ne_empty hs0
        by_cases hreg : zoneIDRegexTest z = true
        · rcases hs1 : (pathSegs req.pathname)[1]? with _ | a
          · simp [specValidationFirstFailure, hm, hct, hs0, hreg, hs1] at h
          · have hane : a ≠ "" := pathSegs_get_ne_empty hs1
            by_cases hac : VALID_ACTIONS.contains a = true
            · have hacm : a ∈ VALID_ACTIONS := by simpa using hac
              by_cases htok : jsFalsyStr env.CF_API_TOKEN = true
              · simp [specValidationFirstFailure, hm, hct, hs0, hreg, hs1, hacm, htok] at h
              · have htokf : jsFalsyStr env.CF_API_TOKEN = false := by
                  simpa [Bool.not_eq_true] using htok
                rcases hjb : req.jsonBody with _ | body
                · simp [specValidationFirstFailure, hm, hct, hs0, hreg, hs1, hacm,
                    htokf, hjb] at h
                · by_cases hurl : jsTruthyOpt (jsPostCurrentUrl body) = true
                  · refine ⟨(validateRequest_none_iff req).mpr ⟨hm, hct⟩,
                      (validateZoneID_none_iff _).mpr ⟨z, rfl, hzne, hreg⟩,
                      (validateAction_none_iff _).mpr ⟨a, rfl, hane, hac⟩,
                      (validateApiToken_none_iff _).mpr htokf,
                      fun b hb => ?_⟩
                    injection hb with hb
                    subst hb
                    exact (validateWebhookBody_none_iff _).mpr hurl
                  · have hurlf : jsTruthyOpt (jsPostCurrentUrl body) = false := by
                      simpa [Bool.not_eq_true] using hurl
                    simp [specValidationFirstFailure, hm, hct, hs0, hreg, hs1, hacm,
                      htokf, hjb, hurlf] at h
            · have hacm : a ∉ VALID_ACTIONS := by simpa using hac
              simp [specValidationFirstFailure, hm, hct, hs0, hreg, hs1, hacm] at h
        · have hregf : zoneIDRegexTest z = false := by
            simpa [Bool.not_eq_true] using hreg
          simp [specValidationFirstFailure, hm, hct, hs0, hregf] at h
    · have hctf : jsIncludes (req.contentType.getD "") "application/json" = false := by
        simpa [Bool.not_eq_true] using hct
      simp [specValidationFirstFailure, hm, hctf] at h
  · simp [specValidationFirstFailure, hm] at h

/-! ## Claim C2 -/

/-- C2: the handler runs the nine validation checks in the claimed order
with the claimed statuses, short-circuiting with the first failing check's
response and no outbound call; when every check passes it proceeds to the
purge flow (one outbound call, or the uncaught URL exception). -/
theorem validation_checks_order (req : Req) (env : Env)
    (cdn : OutboundCall → CdnResp) :
    (∀ s, specValidationFirstFailure req env = some s →
      ∃ msg, handleRequest req env cdn = (.resp ⟨s, msg⟩, [])) ∧
    (specValidationFirstFailure req env = none →
      handleRequest req env cdn = (.thrown, []) ∨
      ∃ c, (handleRequest req env cdn).2 = [c]) := by
  by_cases hm : req.method = "POST"
  · by_cases hct : jsIncludes (req.contentType.getD "") "application/json" = true
    · have hv1 : validateRequest req = none := (validateRequest_none_iff req).mpr ⟨hm, hct⟩
      rcases hs0 : (pathSegs req.pathname)[0]? with _ | z
      · have h2 : validateZoneID ((pathSegs req.pathname)[0]?) =
            some ⟨HTTP_BAD_REQUEST, ERROR_MISSING_ZONE_ID⟩ := by
          rw [hs0]
          simp [validateZoneID, jsFalsyStr]
        exact validation_order_leaf (handleRequest_zoneError env cdn hv1 h2)
          (by simp [specValidationFirstFailure, hm, hct, hs0, HTTP_BAD_REQUEST])
      · have hzne : z ≠ "" := pathSegs_get_ne_empty hs0
        by_cases hreg : zoneIDRegexTest z = true
        · have hv2 : validateZoneID ((pathSegs req.pathname)[0]?) = none :=
            (validateZoneID_none_iff _).mpr ⟨z, hs0, hzne, hreg⟩
          rcases hs1 : (pathSegs req.pathname)[1]? with _ | a
          · have h3 : validateAction ((pathSegs req.pathname)[1]?) =
                some ⟨HTTP_BAD_REQUEST, ERROR_MISSING_ACTION⟩ := by
              rw [hs1]
              simp [validateAction, jsFalsyStr]
            exact validation_order_leaf (handleRequest_actionError env cdn hv1 hv2 h3)
              (by simp [specValidationFirstFailure, hm, hct, hs0, hreg, hs1,
                HTTP_BAD_REQUEST])
          · have hane : a ≠ "" := pathSegs_get_ne_empty hs1
            by_cases hac : VALID_ACTIONS.contains a = true
            · have hacm : a ∈ VALID_ACTIONS := by simpa using hac
              have hv3 : validateAction ((pathSegs req.pathname)[1]?) = none :=
                (validateAction_none_iff _).mpr ⟨a, hs1, hane, hac⟩
              by_cases htok : jsFalsyStr env.CF_API_TOKEN = true
              · have h4 : validateApiToken env.CF_API_TOKEN =
                    some ⟨HTTP_INTERNAL_ERROR, ERROR_MISSING_API_TOKEN⟩ := by
                  simp [validateApiToken, htok]
                exact validation_order_leaf (handleRequest_tokenError cdn hv1 hv2 hv3 h4)
                  (by simp [specValidationFirstFailure, hm, hct, hs0, hreg, hs1,
                    hacm, htok, HTTP_INTERNAL_ERROR])
              · have htokf : jsFalsyStr env.CF_API_TOKEN = false := by
                  simpa [Bool.not_eq_true] using htok
                have hv4 : validateApiToken env.CF_API_TOKEN = none :=
                  (validateApiToken_none_iff _).mpr htokf
                rcases hjb : req.jsonBody with _ | body
                · exact validation_order_leaf
                    (handleRequest_jsonError cdn hv1 hv2 hv3 hv4 hjb)
                    (by simp [specValidationFirstFailure, hm, hct, hs0, hreg, hs1,
                      hacm, htokf, hjb, HTTP_BAD_REQUEST])
                · by_cases hurl : jsTruthyOpt (jsPostCurrentUrl body) = true
                  · have hv6 : validateWebhookBody body = none :=
                      (validateWebhookBody_none_iff _).mpr hurl
                    have hspec0 : specValidationFirstFailure req env = none := by
                      simp [specValidationFirstFailure, hm, hct, hs0, hreg, hs1,
                        hacm, htokf, hjb, hurl]
                    refine ⟨?_, ?_⟩
                    · intro s hs
                      rw [hspec0] at hs
                      exact absurd hs (by simp)
                    · intro _
                      rcases hv7 : parseURL (jsToString ((jsPostCurrentUrl body).getD .null))
                        with _ | u
                      · exact Or.inl
                          (handleRequest_urlThrow cdn hv1 hv2 hv3 hv4 hjb hv6 hv7)
                      · right
                        have hd := handleRequest_dispatch cdn hv1 hv2 hv3 hv4 hjb hv6 hv7
                        rw [hd]
                        refine ⟨purgeURL
                          (getUrlsToPurge (((pathSegs req.pathname)[1]?).getD "")
                            (u.protocol ++ "//" ++ u.host) u.href)
                          (((pathSegs req.pathname)[0]?).getD "")
                          (env.CF_API_TOKEN.getD ""), ?_⟩
                        by_cases hok : (cdn (purgeURL
                            (getUrlsToPurge (((pathSegs req.pathname)[1]?).getD "")
                              (u.protocol ++ "//" ++ u.host) u.href)
                            (((pathSegs req.pathname)[0]?).getD "")
                            (env.CF_API_TOKEN.getD ""))).ok = true
                        · simp only [hok, if_true]
                        · simp only [Bool.not_eq_true] at hok
                          simp only [hok, Bool.false_eq_true, if_false]
                  · have hurlf : jsTruthyOpt (jsPostCurrentUrl body) = false := by
                      simpa [Bool.not_eq_true] using hurl
                    have h6 : validateWebhookBody body =
                        some ⟨HTTP_BAD_REQUEST, ERROR_INVALID_WEBHOOK⟩ := by
                      simp [validateWebhookBody, hurlf]
                    exact validation_order_leaf
                      (handleRequest_bodyError cdn hv1 hv2 hv3 hv4 hjb h6)
                      (by simp [specValidationFirstFailure, hm, hct, hs0, hreg, hs1,
                        hacm, htokf, hjb, hurlf, HTTP_BAD_REQUEST])
            · have hacf : VALID_ACTIONS.contains a = false := by
                simpa [Bool.not_eq_true] using hac
              have hacm : a ∉ VALID_ACTIONS := fun hmem => hac (by simpa using hmem)
              have h3 : validateAction ((pathSegs req.pathname)[1]?) =
                  some ⟨HTTP_BAD_REQUEST, ERROR_INVALID_ACTION⟩ := by
                rw [hs1]
                simp [validateAction, jsFalsyStr, hane]
                exact hacm
              refine validation_order_leaf (handleRequest_actionError env cdn hv1 hv2 h3) ?_
              simp [specValidationFirstFailure, hm, hct, hs0, hreg, hs1, HTTP_BAD_REQUEST]
              intro hmem
              exact absurd hmem hacm
        · have hregf : zoneIDRegexTest z = false := by
            simpa [Bool.not_eq_true] using hreg
          have h2 : validateZoneID ((pathSegs req.pathname)[0]?) =
              some ⟨HTTP_BAD_REQUEST, ERROR_INVALID_ZONE_FORMAT⟩ := by
            rw [hs0]
            simp [validateZoneID, jsFalsyStr, hzne, hregf]
          exact validation_order_leaf (handleRequest_zoneError env cdn hv1 h2)
            (by simp [specValidationFirstFailure, hm, hct, hs0, hregf, HTTP_BAD_REQUEST])
    · have hctf : jsIncludes (req.contentType.getD "") "application/json" = false := by
        simpa [Bool.not_eq_true] using hct
      have h1 : validateRequest req =
          some ⟨HTTP_BAD_REQUEST, ERROR_INVALID_CONTENT_TYPE⟩ := by
        simp [validateRequest, hm, hctf]
      exact validation_order_leaf (handleRequest_requestError env cdn h1)
        (by simp [specValidationFirstFailure, hm, hctf, HTTP_BAD_REQUEST])
  · have h1 : validateRequest req =
        some ⟨HTTP_METHOD_NOT_ALLOWED, ERROR_METHOD_NOT_ALLOWED⟩ := by
      simp [validateRequest, hm]
    exact validation_order_leaf (handleRequest_requestError env cdn h1)
      (by simp [specValidationFirstFailure, hm, HTTP_METHOD_NOT_ALLOWED])

theorem validation_checks_order_witness :
    ∃ msg, handleRequest { exampleReq with method := "DELETE" } exampleEnv cdnAlwaysOk =
      (.resp ⟨405, msg⟩, []) :=
  (validation_checks_order { exampleReq with method := "DELETE" }
    exampleEnv cdnAlwaysOk).1 405 (by decide)

/-! ## Claim C8 -/

/-- C8 counterexample: a request that passes every validation check but
whose post.current.url does not parse performs zero outbound calls, so a
validated request does not always produce exactly one call. -/
theorem validated_request_zero_calls_on_unparseable_url :
    specValidationFirstFailure reqBadUrl exampleEnv = none ∧
    (handleRequest reqBadUrl exampleEnv cdnAlwaysOk).2 = [] := by
  decide

/-- C8 amended: every request that passes all validation and whose post
URL parses performs exactly one outbound call, a POST to the zone-scoped
purge endpoint with JSON content type, bearer authorization and the derived
URL list as its files body; no second call occurs on any outcome. -/
theorem validated_request_single_outbound_call (req : Req) (env : Env)
    (cdn : OutboundCall → CdnResp) (z a : String) (body : Json) (u : URLParts)
    (hv : specValidationFirstFailure req env = none)
    (hz : (pathSegs req.pathname)[0]? = some z)
    (ha : (pathSegs req.pathname)[1]? = some a)
    (hb : req.jsonBody = some body)
    (hu : parseURL (jsToString ((jsPostCurrentUrl body).getD .null)) = some u) :
    (handleRequest req env cdn).2 =
      [{ url := "https://api.cloudflare.com/client/v4/zones/" ++ z ++ "/purge_cache"
         method := "POST"
         contentType := "application/json"
         authorization := "Bearer " ++ env.CF_API_TOKEN.getD ""
         files := getUrlsToPurge a (u.protocol ++ "//" ++ u.host) u.href }] := by
  obtain ⟨hv1, hv2, hv3, hv4, hwb⟩ := specValidationFirstFailure_none_elim req env hv
  have hv6 : validateWebhookBody body = none := hwb body hb
  have hd := handleRequest_dispatch cdn hv1 hv2 hv3 hv4 hb hv6 hu
  rw [hz, ha] at hd
  simp only [Option.getD_some] at hd
  rw [hd]
  by_cases hok : (cdn (purgeURL
      (getUrlsToPurge a (u.protocol ++ "//" ++ u.host) u.href) z
      (env.CF_API_TOKEN.getD ""))).ok = true
  · simp only [hok, if_true]
    rfl
  · simp only [Bool.not_eq_true] at hok
    simp only [hok, Bool.false_eq_true, if_false]
    rfl

theorem validated_request_single_outbound_call_witness :
    (handleRequest exampleReq exampleEnv cdnAlwaysOk).2 =
      [{ url := "https://api.cloudflare.com/client/v4/zones/0123456789abcdef0123456789abcdef/purge_cache"
         method := "POST"
         contentType := "application/json"
         authorization := "Bearer test-token"
         files := getUrlsToPurge "postPublished" "https://example.com"
           "https://example.com/my-post/" }] :=
  validated_request_single_outbound_call exampleReq exampleEnv cdnAlwaysOk
    "0123456789abcdef0123456789abcdef" "postPublished" exampleBody
    ⟨"https:", "example.com", "https://example.com/my-post/"⟩
    (by decide) (by decide) (by decide) rfl (by decide)

end GhostPurge
